import Mathlib

/-
Verification of the auto form-submission tool (main.py, get_field_id.py).

The Python code is shallowly embedded: network I/O is modelled by passing the
outcome of each HTTP call as an explicit argument (an oracle function or an
outcome value), and every embedded function additionally reports whether it
reached a network call, so that "returns without making a network call" is a
provable statement.  Python dicts are modelled as association lists in
insertion order with the update-in-place / append-at-end semantics of CPython;
Python string membership (the `in` operator) is a contiguous-sublist check on
the character list.  Wall-clock instants are (days since an epoch Monday,
microseconds since midnight), so that `days % 7` coincides with Python's
`datetime.weekday()` (Monday = 0).
-/

set_option autoImplicit false

namespace AutoWork

/-- Python `needle in hay` membership on character lists: `needle` occurs as a
contiguous sublist of the argument. -/
def listContains (needle : List Char) : List Char → Bool
  | [] => needle.isEmpty
  | c :: t => needle.isPrefixOf (c :: t) || listContains needle t

/-- Python `needle in hay` on strings. -/
def strContains (hay needle : String) : Bool :=
  listContains needle.toList hay.toList

/-- Python dict assignment `m[k] = v` on an association list kept in insertion
order: an existing key keeps its position and receives the new value, a fresh
key is appended at the end (CPython 3.7+ semantics). -/
def dictInsert (m : List (String × String)) (k v : String) : List (String × String) :=
  if m.any (fun p => decide (p.1 = k)) then
    m.map (fun p => if p.1 = k then (k, v) else p)
  else m ++ [(k, v)]

/-- Python `dict.update(kvs)`: every pair of `kvs` is assigned into `m` in
order. -/
def pyUpdate (m kvs : List (String × String)) : List (String × String) :=
  kvs.foldl (fun acc p => dictInsert acc p.1 p.2) m

/-- Python truthiness of an optional string (`if not x`): `None` and the empty
string are falsy. -/
def pyTruthyStr : Option String → Bool
  | none => false
  | some s => decide (s ≠ "")

/-! ### URL Resolver (`get_field_id.resolve_short_url`) -/

/-- Outcome of `requests.get(short_url, allow_redirects=False)` as the
resolver observes it: a raised transport error, or a response carrying a
status (ok = `raise_for_status` does not raise) and an optional `Location`
header. -/
inductive GetOutcome where
  | requestError : GetOutcome
  | response (statusOk : Bool) (location : Option String) : GetOutcome

/-- Result of the resolver together with the fact whether the network was
reached. -/
structure ResolveResult where
  url : Option String
  networkCalled : Bool
deriving DecidableEq

/-- Drop leading whitespace characters. -/
def dropLeadingWhitespace : List Char → List Char
  | [] => []
  | c :: t => if c.isWhitespace then dropLeadingWhitespace t else c :: t

/-- Python `str.strip()`: remove whitespace from both ends. -/
def pyStrip (s : String) : String :=
  String.mk (dropLeadingWhitespace (dropLeadingWhitespace s.toList).reverse).reverse

/-- The list comprehension
`[line.strip() for line in url_file if line.strip()]`: lines are stripped and
blank (whitespace-only) lines are dropped. -/
def stripLines (rawLines : List String) : List String :=
  (rawLines.map pyStrip).filter (fun s => decide (s ≠ ""))

/-- Tail of `resolve_short_url` after the short URL has been selected:
follow one redirect, extract the `Location` header; any transport error,
error status, or missing/empty `Location` yields `none`
(`if not form_url: return None`). -/
def followRedirect (net : String → GetOutcome) (short_url : String) : Option String :=
  match net short_url with
  | .requestError => none
  | .response statusOk location =>
    if !statusOk then none
    else match location with
      | none => none
      | some form_url => if form_url = "" then none else some form_url

/-- `get_field_id.resolve_short_url`. `dayConv` is the result of the
`int(day_number)` conversion attempt (`none` = `TypeError`/`ValueError`);
`fileLines` is the content of the URL list file (`none` = `OSError`);
`net` is the HTTP oracle. -/
def resolve_short_url (dayConv : Option Int) (fileLines : Option (List String))
    (net : String → GetOutcome) : ResolveResult :=
  match dayConv with
  | none => ⟨none, false⟩
  | some day_index =>
    if day_index < 1 ∨ day_index > 7 then ⟨none, false⟩
    else
      match fileLines with
      | none => ⟨none, false⟩
      | some raw =>
        let urls := stripLines raw
        if (urls.length : Int) < day_index then ⟨none, false⟩
        else
          match urls.get? (day_index - 1).toNat with
          | none => ⟨none, false⟩
          | some short_url => ⟨followRedirect net short_url, true⟩

/-! ### Field Discovery (`get_field_id.fetch_form_entry_ids_for_day`) -/

/-- Outcome of fetching and parsing the form page: a raised request error
(transport failure or `raise_for_status`), a parse failure (missing
`FB_PUBLIC_LOAD_DATA_`, JSON error, or unexpected nesting), or the extracted
ordered list of question records (label, entry id). -/
inductive PageOutcome where
  | requestError : PageOutcome
  | parseError : PageOutcome
  | questions (qs : List (String × Nat)) : PageOutcome

/-- The triple returned by field discovery, together with the fact whether the
network was reached. -/
structure EntryIds where
  name_entry : Option String
  option_entry : Option String
  reason_entry : Option String
  networkCalled : Bool
deriving DecidableEq

/-- `f"entry.{entry_id}"`. -/
def entryString (entry_id : Nat) : String := "entry." ++ toString entry_id

/-- The loop `for question in questions: entry_map[question_text] = ...`,
building the Python dict keyed by question label. -/
def buildEntryMap (qs : List (String × Nat)) : List (String × String) :=
  qs.foldl (fun m q => dictInsert m q.1 (entryString q.2)) []

/-- `next((v for k, v in entry_map.items() if keyword in k), None)`: the value
of the first entry whose key contains `keyword`. -/
def findEntry (keyword : String) (m : List (String × String)) : Option String :=
  (m.find? (fun p => strContains p.1 keyword)).map Prod.snd

/-- `get_field_id.fetch_form_entry_ids_for_day`. -/
def fetch_form_entry_ids_for_day (form_url : Option String) (day_number : Int)
    (net : String → PageOutcome) : EntryIds :=
  let need_reason := decide (6 ≤ day_number)
  match form_url with
  | none => ⟨none, none, none, false⟩
  | some u =>
    if u = "" then ⟨none, none, none, false⟩
    else
      match net u with
      | .requestError => ⟨none, none, none, true⟩
      | .parseError => ⟨none, none, none, true⟩
      | .questions qs =>
        let entry_map := buildEntryMap qs
        let name_entry := findEntry "姓名" entry_map
        let option_entry := findEntry "排休" entry_map
        let reason_entry := if need_reason then findEntry "原因" entry_map else none
        ⟨name_entry, option_entry, reason_entry, true⟩

/-! ### Submission Executor (`main.execute_submission`) -/

/-- The fixed confirmation phrase searched for in the response body. -/
def success_message : String := "我們已經收到您回覆的表單。"

/-- The fixed secondary phrase ("submit another response" link text). -/
def submit_another_link_text : String := "提交其他回應"

/-- Outcome of the `session.post(...)` call: a raised transport error, or a
response carrying a status (ok = `raise_for_status` does not raise) and a
body. -/
inductive PostOutcome where
  | requestError : PostOutcome
  | response (statusOk : Bool) (body : String) : PostOutcome

/-- Result of one executor run: the `(day_number, success)` pair the function
returns, plus how many POSTs were attempted. -/
structure ExecResult where
  day_number : Int
  success : Bool
  postsAttempted : Nat
deriving DecidableEq

/-- `main.execute_submission`: POST once; `raise_for_status`; success iff the
body contains both marker phrases; every `requests` exception is caught and
mapped to `(day, False)`. -/
def execute_submission (day_number : Int) (post : PostOutcome) : ExecResult :=
  match post with
  | .requestError => ⟨day_number, false, 1⟩
  | .response statusOk body =>
    if !statusOk then ⟨day_number, false, 1⟩
    else if strContains body success_message && strContains body submit_another_link_text then
      ⟨day_number, true, 1⟩
    else ⟨day_number, false, 1⟩

/-! ### Submission Preparer (`main.prepare_submission_data`) -/

/-- The descriptor returned by a successful preparation. -/
structure SubmissionDescriptor where
  day_number : Int
  url : String
  referer : String
  payload : List (String × String)
deriving DecidableEq

/-- `main.prepare_submission_data`. `resolved_url` is the result of step 1
(`resolve_short_url`), `fbzx_token` the result of step 2 (the token scrape:
`none` covers both a missing token and a request error), `ids` the triple
returned by step 3 (`fetch_form_entry_ids_for_day`).  Returns `none` exactly
where the Python function returns `None`. -/
def prepare_submission_data (day_number : Int) (resolved_url : Option String)
    (fbzx_token : Option String) (ids : EntryIds)
    (name : String) (reason : Option String) (leave_option : String) :
    Option SubmissionDescriptor :=
  match resolved_url with
  | none => none
  | some viewform_url =>
    let formresponse_url := viewform_url.replace "/viewform" "/formResponse"
    match fbzx_token with
    | none => none
    | some fbzx =>
      if pyTruthyStr ids.name_entry = false ∨ pyTruthyStr ids.option_entry = false ∨
          (6 ≤ day_number ∧ pyTruthyStr ids.reason_entry = false) then none
      else
        let payload := [("fbzx", fbzx)]
        let user_data := dictInsert (dictInsert [] (ids.name_entry.getD "") name)
          (ids.option_entry.getD "") leave_option
        let user_data :=
          if 6 ≤ day_number ∧ pyTruthyStr reason = true then
            dictInsert user_data (ids.reason_entry.getD "") (reason.getD "")
          else user_data
        some ⟨day_number, formresponse_url, viewform_url, pyUpdate payload user_data⟩

/-! ### Scheduler (`main.wait_for_scheduled_time`) -/

/-- Microseconds in one day. -/
def microsPerDay : Nat := 86400000000

/-- Microseconds since midnight of the daily target 13:59:59.750000. -/
def target_micros_of_day : Nat := 50399750000

/-- Microseconds since midnight of 14:00:00, the roll-forward threshold
`dt_time(14, 0)`. -/
def fourteen_oclock_micros : Nat := 50400000000

/-- The target-computation part of `main.wait_for_scheduled_time`, as total
microseconds since the epoch (day 0 is a Monday, so `now_days % 7` is
Python's `weekday()`): `days_until_wednesday = (2 - weekday + 7) % 7`, rolled
to 7 when today is Wednesday and the time of day has reached 14:00, and the
target instant is that day at 13:59:59.750. -/
def scheduled_target (now_days now_micros : Nat) : Nat :=
  (now_days +
      (if (2 + 7 - now_days % 7) % 7 = 0 ∧ fourteen_oclock_micros ≤ now_micros then 7
       else (2 + 7 - now_days % 7) % 7)) *
    microsPerDay + target_micros_of_day

/-! ### Orchestrator summary (`main.__main__`) -/

/-- The `fail_count` accumulation of the main block: it starts by counting
every preparation failure, then the submission loop adds one for each
`(day, success=False)` result. -/
def final_fail_count (prep_failed_count : Nat) (results : List (Int × Bool)) : Nat :=
  results.foldl (fun n r => if r.2 then n else n + 1) prep_failed_count

/-- `'all_success': fail_count == 0 and len(prep_failed_tasks) == 0`. -/
def all_success (prep_failed_count : Nat) (results : List (Int × Bool)) : Bool :=
  decide (final_fail_count prep_failed_count results = 0) &&
    decide (prep_failed_count = 0)

/-! ### Helper lemmas -/

/-- Assigning a key that is not present appends the pair at the end. -/
theorem dictInsert_fresh (m : List (String × String)) (k v : String)
    (h : ∀ p ∈ m, p.1 ≠ k) : dictInsert m k v = m ++ [(k, v)] := by
  have hany : m.any (fun p => decide (p.1 = k)) = false := by
    rw [List.any_eq_false]
    intro p hp
    simpa using h p hp
  unfold dictInsert
  simp [hany]

/-- Unfolding `pyUpdate` one pair at a time. -/
theorem pyUpdate_cons (m : List (String × String)) (a b : String)
    (kvs : List (String × String)) :
    pyUpdate m ((a, b) :: kvs) = pyUpdate (dictInsert m a b) kvs := rfl

/-- `pyUpdate` with nothing to assign. -/
theorem pyUpdate_nil (m : List (String × String)) : pyUpdate m [] = m := rfl

/-- The fail counter of the main block equals the preparation-failure count
plus the number of unsuccessful submission results. -/
theorem final_fail_count_eq (prep_failed_count : Nat) (results : List (Int × Bool)) :
    final_fail_count prep_failed_count results
      = prep_failed_count + (results.filter (fun r => !r.2)).length := by
  induction results generalizing prep_failed_count with
  | nil => rfl
  | cons r t ih =>
    have hstep : final_fail_count prep_failed_count (r :: t)
        = final_fail_count (if r.2 then prep_failed_count else prep_failed_count + 1) t := rfl
    rw [hstep]
    cases hr : r.2
    · simp [hr, ih, List.filter_cons]
      omega
    · simp [hr, ih, List.filter_cons]

/-- Folding dict assignment over question records whose labels are pairwise
distinct and fresh for the accumulator just appends the entries in order. -/
theorem foldl_dictInsert_fresh (qs : List (String × Nat)) (acc : List (String × String))
    (hacc : ∀ p ∈ acc, ∀ q ∈ qs, p.1 ≠ q.1)
    (h : (qs.map Prod.fst).Nodup) :
    qs.foldl (fun m q => dictInsert m q.1 (entryString q.2)) acc
      = acc ++ qs.map (fun q => (q.1, entryString q.2)) := by
  induction qs generalizing acc with
  | nil => simp
  | cons q t ih =>
    rw [List.map_cons, List.nodup_cons] at h
    rw [List.foldl_cons, dictInsert_fresh _ _ _
      (fun p hp => hacc p hp q (List.mem_cons_self q t))]
    rw [ih (acc ++ [(q.1, entryString q.2)]) ?_ h.2]
    · simp
    · intro p hp r hr
      rcases List.mem_append.mp hp with hp | hp
      · exact hacc p hp r (List.mem_cons_of_mem q hr)
      · have hpq : p = (q.1, entryString q.2) := by simpa using hp
        subst hpq
        intro hqr
        exact h.1 (by rw [hqr]; exact List.mem_map_of_mem Prod.fst hr)

/-- With pairwise-distinct labels the entry map is just the list of
(label, entry-string) pairs in document order. -/
theorem buildEntryMap_nodup (qs : List (String × Nat))
    (h : (qs.map Prod.fst).Nodup) :
    buildEntryMap qs = qs.map (fun q => (q.1, entryString q.2)) := by
  simpa using foldl_dictInsert_fresh qs [] (by simp) h

/-- Looking a keyword up in a label-keyed map of question records matches the
first question whose label contains the keyword. -/
theorem findEntry_map_labels (keyword : String) (qs : List (String × Nat)) :
    findEntry keyword (qs.map (fun q => (q.1, entryString q.2)))
      = (qs.find? (fun q => strContains q.1 keyword)).map (fun q => entryString q.2) := by
  unfold findEntry
  rw [List.find?_map, Option.map_map]
  rfl

/-! ### Claims -/

/-- C6: for every day selector outside [1,7], including values that fail the
integer conversion, the URL Resolver returns an absent result without any
network call (and, being a total function, without throwing). -/
theorem resolver_rejects_out_of_range (dayConv : Option Int)
    (fileLines : Option (List String)) (net : String → GetOutcome)
    (h : dayConv = none ∨ ∃ d, dayConv = some d ∧ (d < 1 ∨ 7 < d)) :
    resolve_short_url dayConv fileLines net = ⟨none, false⟩ := by
  rcases h with rfl | ⟨d, rfl, hd⟩
  · rfl
  · simp only [resolve_short_url]
    rw [if_pos hd]

/-- C6 witness: day selector 9 is rejected with no network call. -/
theorem resolver_rejects_out_of_range_witness :
    resolve_short_url (some 9) (some ["https://short/1"]) (fun _ => .requestError)
      = ⟨none, false⟩ :=
  resolver_rejects_out_of_range (some 9) (some ["https://short/1"]) (fun _ => .requestError)
    (Or.inr ⟨9, rfl, Or.inr (by norm_num)⟩)

/-- C10: field discovery with an absent or empty form URL returns the
all-absent triple without any network call (and, being total, without
throwing), for every day selector. -/
theorem discovery_empty_url_no_network (form_url : Option String) (day_number : Int)
    (net : String → PageOutcome) (h : form_url = none ∨ form_url = some "") :
    fetch_form_entry_ids_for_day form_url day_number net = ⟨none, none, none, false⟩ := by
  rcases h with rfl | rfl <;> rfl

/-- C10 witness: the empty form URL on a Sunday run. -/
theorem discovery_empty_url_no_network_witness :
    fetch_form_entry_ids_for_day (some "") 7 (fun _ => .parseError)
      = ⟨none, none, none, false⟩ :=
  discovery_empty_url_no_network (some "") 7 (fun _ => .parseError) (Or.inr rfl)

/-- C7: the executor maps every request error (transport failure or HTTP
error status raised by `raise_for_status`) to `(day, false)` rather than
propagating it, and every run attempts exactly one POST (no retry). -/
theorem executor_catches_errors (day_number : Int) (post : PostOutcome)
    (h : post = .requestError ∨ ∃ body, post = .response false body) :
    execute_submission day_number post = ⟨day_number, false, 1⟩ ∧
      ∀ q : PostOutcome, (execute_submission day_number q).postsAttempted = 1 := by
  constructor
  · rcases h with rfl | ⟨body, rfl⟩ <;> rfl
  · intro q
    rcases q with _ | ⟨ok, body⟩
    · rfl
    · cases ok
      · rfl
      · simp only [execute_submission]
        split <;> first | rfl | (split <;> rfl)

/-- C7 witness: a transport error on day 3 yields `(3, false)` after one
attempt. -/
theorem executor_catches_errors_witness :
    execute_submission 3 .requestError = ⟨3, false, 1⟩ :=
  (executor_catches_errors 3 .requestError (Or.inl rfl)).1

/-- C2 counterexample: a response with an HTTP error status whose body
contains both marker phrases is classified as failure, refuting "success if
and only if both markers are present regardless of the status code". -/
theorem executor_status_counterexample :
    (execute_submission 1
        (.response false (success_message ++ submit_another_link_text))).success = false ∧
    strContains (success_message ++ submit_another_link_text) success_message = true ∧
    strContains (success_message ++ submit_another_link_text) submit_another_link_text
      = true :=
  ⟨rfl, rfl, rfl⟩

/-- C2 (amended): the executor classifies success if and only if the POST
returned a non-error status (so `raise_for_status` did not raise) and the
body contains both fixed marker phrases; in particular a 200 response lacking
either marker is a failure. -/
theorem executor_success_iff (day_number : Int) (post : PostOutcome) :
    (execute_submission day_number post).success = true ↔
      ∃ body, post = .response true body ∧
        strContains body success_message = true ∧
        strContains body submit_another_link_text = true := by
  rcases post with _ | ⟨ok, body⟩
  · simp [execute_submission]
  · cases ok
    · simp [execute_submission]
    · unfold execute_submission
      by_cases h1 : strContains body success_message = true <;>
        by_cases h2 : strContains body submit_another_link_text = true <;>
          simp [h1, h2]

/-- C8: the aggregate `all_success` flag is true if and only if there are no
preparation failures and every submission result is a success. -/
theorem summary_all_success_iff (prep_failed_count : Nat) (results : List (Int × Bool)) :
    all_success prep_failed_count results = true ↔
      (prep_failed_count = 0 ∧ ∀ r ∈ results, r.2 = true) := by
  unfold all_success
  rw [Bool.and_eq_true, decide_eq_true_eq, decide_eq_true_eq, final_fail_count_eq]
  constructor
  · rintro ⟨hsum, hp⟩
    refine ⟨hp, fun r hr => ?_⟩
    have hlen : (results.filter (fun r => !r.2)).length = 0 := by omega
    rw [List.length_eq_zero, List.filter_eq_nil_iff] at hlen
    simpa using hlen r hr
  · rintro ⟨hp, hall⟩
    have hnil : results.filter (fun r => !r.2) = [] := by
      rw [List.filter_eq_nil_iff]
      intro r hr
      simp [hall r hr]
    simp [hnil, hp]

/-- C1 counterexample: on a Wednesday (weekday index 2) at 13:59:59.800 —
a valid instant, 50399800000 microseconds into the day — the computed target
is today's occurrence 13:59:59.750, which is strictly in the past, refuting
"the target is always strictly in the future". -/
theorem scheduler_future_counterexample :
    2 % 7 = 2 ∧ 50399800000 < microsPerDay ∧
    scheduled_target 2 50399800000 = 2 * microsPerDay + target_micros_of_day ∧
    scheduled_target 2 50399800000 < 2 * microsPerDay + 50399800000 := by
  decide

/-- C1 (amended): the computed target is strictly in the future if and only
if the invocation instant is not inside the Wednesday window from
13:59:59.750 (inclusive) to 14:00:00 (exclusive); the roll-forward by one
week happens only once the time of day reaches 14:00:00, so inside that
250 ms window the target is today's occurrence, already equalled or passed. -/
theorem scheduler_target_future_iff (now_days now_micros : Nat)
    (h : now_micros < microsPerDay) :
    now_days * microsPerDay + now_micros < scheduled_target now_days now_micros ↔
      ¬(now_days % 7 = 2 ∧ target_micros_of_day ≤ now_micros ∧
        now_micros < fourteen_oclock_micros) := by
  unfold scheduled_target microsPerDay target_micros_of_day fourteen_oclock_micros at *
  split_ifs with hc <;> omega

/-- C1 witness: at the epoch Monday midnight the target is strictly in the
future. -/
theorem scheduler_target_future_iff_witness :
    0 * microsPerDay + 0 < scheduled_target 0 0 :=
  (scheduler_target_future_iff 0 0 (by norm_num [microsPerDay])).mpr (by decide)

/-- C9: day selector N picks the Nth element of the sequence of non-blank
stripped lines (blank and whitespace-only lines are skipped before indexing);
a selector exceeding the count of non-blank lines yields an absent result
without a network call; and every element of that sequence is a non-empty
stripped original line. -/
theorem resolver_selects_nth_nonblank (raw : List String) (d : Int)
    (net : String → GetOutcome) (h1 : 1 ≤ d) :
    (∀ s ∈ stripLines raw, s ≠ "" ∧ ∃ l ∈ raw, s = pyStrip l) ∧
    (((stripLines raw).length : Int) < d →
      resolve_short_url (some d) (some raw) net = ⟨none, false⟩) ∧
    (d ≤ ((stripLines raw).length : Int) → d ≤ 7 →
      ∃ u, (stripLines raw).get? (d - 1).toNat = some u ∧
        resolve_short_url (some d) (some raw) net = ⟨followRedirect net u, true⟩) := by
  refine ⟨?_, ?_, ?_⟩
  · intro s hs
    unfold stripLines at hs
    rw [List.mem_filter] at hs
    obtain ⟨hsm, hsne⟩ := hs
    rw [List.mem_map] at hsm
    obtain ⟨l, hl, rfl⟩ := hsm
    exact ⟨by simpa using hsne, l, hl, rfl⟩
  · intro hlt
    simp only [resolve_short_url]
    by_cases h7 : d > 7
    · rw [if_pos (Or.inr h7)]
    · rw [if_neg (by omega), if_pos hlt]
  · intro hle h7
    have hx : (d - 1).toNat < (stripLines raw).length := by omega
    refine ⟨(stripLines raw).get ⟨(d - 1).toNat, hx⟩, List.get?_eq_get hx, ?_⟩
    simp only [resolve_short_url]
    rw [if_neg (by omega), if_neg (by omega), List.get?_eq_get hx]

/-- C9 witness: the second non-blank line of `[" a ", "", "b"]` is `"b"`. -/
theorem resolver_selects_nth_nonblank_witness :
    resolve_short_url (some 2) (some [" a ", "", "b"]) (fun _ => .requestError)
      = ⟨none, true⟩ := by
  obtain ⟨u, hu, hres⟩ := (resolver_selects_nth_nonblank [" a ", "", "b"] 2
    (fun _ => .requestError) (by norm_num)).2.2 (by decide) (by norm_num)
  have hub : u = "b" := by
    have hb : (stripLines [" a ", "", "b"]).get? ((2 : Int) - 1).toNat = some "b" := by decide
    rw [hb] at hu
    exact (Option.some_inj.mp hu).symm
  subst hub
  exact hres

/-- C3: preparation fails (returns no descriptor, so no payload is assembled)
whenever field discovery gives an absent name identifier, an absent option
identifier, or — on days ≥ 6 — an absent reason identifier; for days < 6 an
absent reason identifier alone does not cause failure: with name and option
identifiers present (and the earlier steps succeeding) a descriptor is
produced. -/
theorem preparer_failure_condition (day_number : Int)
    (resolved_url fbzx_token : Option String) (ids : EntryIds)
    (name : String) (reason : Option String) (leave_option : String) :
    ((pyTruthyStr ids.name_entry = false ∨ pyTruthyStr ids.option_entry = false ∨
        (6 ≤ day_number ∧ pyTruthyStr ids.reason_entry = false)) →
      prepare_submission_data day_number resolved_url fbzx_token ids name reason
        leave_option = none) ∧
    (∀ vu fz, day_number < 6 → pyTruthyStr ids.name_entry = true →
      pyTruthyStr ids.option_entry = true →
      (prepare_submission_data day_number (some vu) (some fz) ids name reason
        leave_option).isSome = true) := by
  constructor
  · intro hfail
    rcases resolved_url with _ | vu
    · rfl
    · rcases fbzx_token with _ | fz
      · rfl
      · simp only [prepare_submission_data]
        rw [if_pos hfail]
  · intro vu fz hday hn ho
    have hcond : ¬(pyTruthyStr ids.name_entry = false ∨
        pyTruthyStr ids.option_entry = false ∨
        (6 ≤ day_number ∧ pyTruthyStr ids.reason_entry = false)) := by
      push_neg
      exact ⟨by simp [hn], by simp [ho], fun h6 => absurd h6 (by omega)⟩
    simp only [prepare_submission_data]
    rw [if_neg hcond]
    rfl

/-- C3 witness: on Saturday a missing reason identifier aborts preparation;
on Wednesday the same missing reason identifier does not. -/
theorem preparer_failure_condition_witness :
    prepare_submission_data 6 (some "http://x/viewform") (some "tok")
        ⟨some "entry.1", some "entry.2", none, true⟩ "kenny" (some "long enough reason")
        "休假" = none ∧
    (prepare_submission_data 3 (some "http://x/viewform") (some "tok")
        ⟨some "entry.1", some "entry.2", none, true⟩ "kenny" none "休假").isSome = true :=
  ⟨(preparer_failure_condition 6 (some "http://x/viewform") (some "tok")
      ⟨some "entry.1", some "entry.2", none, true⟩ "kenny" (some "long enough reason")
      "休假").1 (Or.inr (Or.inr ⟨by norm_num, rfl⟩)),
   (preparer_failure_condition 3 (some "http://x/viewform") (some "tok")
      ⟨some "entry.1", some "entry.2", none, true⟩ "kenny" none "休假").2
      "http://x/viewform" "tok" (by norm_num) (by decide) (by decide)⟩

/-- C4: for a successful preparation with pairwise-distinct discovered
identifiers (all different from the token key), the payload is exactly the
anti-forgery token entry, then the name and leave-option entries, plus the
reason entry exactly when the day is ≥ 6 and a (truthy) reason was given; in
particular for days 1–5 the payload never contains a reason entry. -/
theorem preparer_payload_shape (day_number : Int) (vu fz ne oe : String)
    (reOpt : Option String) (nc : Bool) (name : String) (reason : Option String)
    (leave_option : String)
    (hne : ne ≠ "") (hoe : oe ≠ "") (hneF : ne ≠ "fbzx") (hoeF : oe ≠ "fbzx")
    (hnoe : oe ≠ ne)
    (hre : ∀ r, reOpt = some r → r ≠ "fbzx" ∧ r ≠ ne ∧ r ≠ oe)
    (hre6 : 6 ≤ day_number → ∃ r, reOpt = some r ∧ r ≠ "") :
    prepare_submission_data day_number (some vu) (some fz) ⟨some ne, some oe, reOpt, nc⟩
        name reason leave_option =
      some ⟨day_number, vu.replace "/viewform" "/formResponse", vu,
        [("fbzx", fz), (ne, name), (oe, leave_option)] ++
          (if 6 ≤ day_number ∧ pyTruthyStr reason = true then
            [(reOpt.getD "", reason.getD "")] else [])⟩ := by
  have hcond : ¬(pyTruthyStr (some ne) = false ∨ pyTruthyStr (some oe) = false ∨
      (6 ≤ day_number ∧ pyTruthyStr reOpt = false)) := by
    push_neg
    refine ⟨by simp [pyTruthyStr, hne], by simp [pyTruthyStr, hoe], fun h6 => ?_⟩
    obtain ⟨r, hr, hrne⟩ := hre6 h6
    simp [hr, pyTruthyStr, hrne]
  have hA1 : dictInsert ([] : List (String × String)) ne name = [(ne, name)] := by
    rw [dictInsert_fresh _ _ _ (by intro p hp; cases hp)]
    rfl
  have hA2 : dictInsert [(ne, name)] oe leave_option = [(ne, name), (oe, leave_option)] := by
    rw [dictInsert_fresh _ _ _ ?_]
    · rfl
    · intro p hp
      obtain rfl := List.mem_singleton.mp hp
      exact hnoe.symm
  have hB1 : dictInsert [("fbzx", fz)] ne name = [("fbzx", fz), (ne, name)] := by
    rw [dictInsert_fresh _ _ _ ?_]
    · rfl
    · intro p hp
      obtain rfl := List.mem_singleton.mp hp
      exact hneF.symm
  have hB2 : dictInsert [("fbzx", fz), (ne, name)] oe leave_option
      = [("fbzx", fz), (ne, name), (oe, leave_option)] := by
    rw [dictInsert_fresh _ _ _ ?_]
    · rfl
    · intro p hp
      rcases List.mem_cons.mp hp with rfl | hp
      · exact hoeF.symm
      · obtain rfl := List.mem_singleton.mp hp
        exact hnoe.symm
  simp only [prepare_submission_data]
  rw [if_neg hcond]
  simp only [Option.getD_some]
  by_cases h6r : 6 ≤ day_number ∧ pyTruthyStr reason = true
  · obtain ⟨r, hr, hrne⟩ := hre6 h6r.1
    obtain ⟨hrF, hrn, hro⟩ := hre r hr
    rw [if_pos h6r, if_pos h6r, hr]
    simp only [Option.getD_some]
    have hA3 : dictInsert [(ne, name), (oe, leave_option)] r (reason.getD "")
        = [(ne, name), (oe, leave_option), (r, reason.getD "")] := by
      rw [dictInsert_fresh _ _ _ ?_]
      · rfl
      · intro p hp
        rcases List.mem_cons.mp hp with rfl | hp
        · exact hrn.symm
        · obtain rfl := List.mem_singleton.mp hp
          exact hro.symm
    have hB3 : dictInsert [("fbzx", fz), (ne, name), (oe, leave_option)] r (reason.getD "")
        = [("fbzx", fz), (ne, name), (oe, leave_option), (r, reason.getD "")] := by
      rw [dictInsert_fresh _ _ _ ?_]
      · rfl
      · intro p hp
        rcases List.mem_cons.mp hp with rfl | hp
        · exact hrF.symm
        · rcases List.mem_cons.mp hp with rfl | hp
          · exact hrn.symm
          · obtain rfl := List.mem_singleton.mp hp
            exact hro.symm
    rw [hA1, hA2, hA3, pyUpdate_cons, hB1, pyUpdate_cons, hB2, pyUpdate_cons, hB3,
      pyUpdate_nil]
    rfl
  · rw [if_neg h6r, if_neg h6r]
    rw [hA1, hA2, pyUpdate_cons, hB1, pyUpdate_cons, hB2, pyUpdate_nil]
    rfl

/-- C4 witness: a Saturday preparation with distinct identifiers and a given
reason yields the four-entry payload in order. -/
theorem preparer_payload_shape_witness :
    prepare_submission_data 6 (some "http://x/viewform") (some "tok")
        ⟨some "entry.1", some "entry.2", some "entry.3", true⟩ "kenny"
        (some "a sufficiently long reason") "休假" =
      some ⟨6, ("http://x/viewform").replace "/viewform" "/formResponse",
        "http://x/viewform",
        [("fbzx", "tok"), ("entry.1", "kenny"), ("entry.2", "休假"),
          ("entry.3", "a sufficiently long reason")]⟩ := by
  have h := preparer_payload_shape 6 "http://x/viewform" "tok" "entry.1" "entry.2"
    (some "entry.3") true "kenny" (some "a sufficiently long reason") "休假"
    (by decide) (by decide) (by decide) (by decide) (by decide)
    (by intro r hr; injection hr with hr; subst hr; exact ⟨by decide, by decide, by decide⟩)
    (fun _ => ⟨"entry.3", rfl, by decide⟩)
  rw [h, if_pos ⟨by norm_num, by decide⟩]
  rfl

/-- C5 counterexample: with two question records bearing the identical label
`"原因"`, field discovery returns the identifier of the *second* record
(`entry.2`), not the first matching question in document order (`entry.1`):
the label-keyed dict overwrites the earlier entry. -/
theorem discovery_first_match_counterexample :
    (fetch_form_entry_ids_for_day (some "http://f/viewform") 6
        (fun _ => .questions [("原因", 1), ("原因", 2)])).reason_entry = some "entry.2" ∧
    [("原因", 1), ("原因", 2)].find? (fun q => strContains q.1 "原因")
      = some ("原因", 1) ∧
    entryString 1 ≠ "entry.2" :=
  ⟨rfl, rfl, by decide⟩

/-- C5 (amended): when all question labels are pairwise distinct, each of the
three keyword lookups returns the identifier of the first question in
document order whose label contains the keyword; for duplicate labels the
later record overwrites the earlier one in the label-keyed map, so the claim
holds only under label distinctness. -/
theorem discovery_first_distinct_label_match (u : String) (day_number : Int)
    (qs : List (String × Nat)) (hu : u ≠ "") (h : (qs.map Prod.fst).Nodup) :
    fetch_form_entry_ids_for_day (some u) day_number (fun _ => .questions qs) =
      ⟨(qs.find? (fun q => strContains q.1 "姓名")).map (fun q => entryString q.2),
       (qs.find? (fun q => strContains q.1 "排休")).map (fun q => entryString q.2),
       (if 6 ≤ day_number then
          (qs.find? (fun q => strContains q.1 "原因")).map (fun q => entryString q.2)
        else none), true⟩ := by
  have hmap := buildEntryMap_nodup qs h
  simp only [fetch_form_entry_ids_for_day]
  rw [if_neg hu, hmap, findEntry_map_labels, findEntry_map_labels, findEntry_map_labels]
  by_cases h6 : 6 ≤ day_number
  · simp [h6]
  · simp [h6]

/-- C5 witness: three distinctly-labelled questions are each resolved to the
first (here: unique) matching question in document order. -/
theorem discovery_first_distinct_label_match_witness :
    fetch_form_entry_ids_for_day (some "http://f/viewform") 6
        (fun _ => .questions [("您的姓名", 10), ("排休日期", 20), ("排休原因", 30)]) =
      ⟨some "entry.10", some "entry.20", some "entry.30", true⟩ := by
  rw [discovery_first_distinct_label_match "http://f/viewform" 6
    [("您的姓名", 10), ("排休日期", 20), ("排休原因", 30)] (by decide) (by decide)]
  rfl

end AutoWork
